import Mathlib

/-!
Verification development for the INDUSTRIA360 dual-node IoT firmware.

The sensing ("slave") node reads temperature/humidity (DHT11, may return
NaN), a gas level (MQ2 analog), classifies the sample against fixed
thresholds, drives a relay, and publishes data/alert/status messages over
MQTT; it accepts RELAY_ON / RELAY_OFF commands on a control topic.  The
supervisory ("master") node mirrors the slave state from inbound MQTT
messages and fans alerts out to Telegram/Blynk, sending a confirmatory
RELAY_OFF on CRITICAL alerts.

C floats that may be NaN are embedded as `Option ℚ` (`none` = NaN); every
C comparison `x > t` on such a value is false when the value is NaN, which
`fgt` mirrors.  Each C function that mutates globals is embedded as an
explicit state transformer returning the new state together with the list
of observable emissions (MQTT publishes, Blynk virtual writes / events,
Telegram messages) it performs, in program order.
-/

namespace Industria

/-- MQTT topic `industrial/slave/data` (both nodes). -/
def TOPIC_DATA : String := "industrial/slave/data"

/-- MQTT topic `industrial/slave/alert` (both nodes). -/
def TOPIC_ALERT : String := "industrial/slave/alert"

/-- MQTT topic `industrial/slave/status` (both nodes). -/
def TOPIC_STATUS : String := "industrial/slave/status"

/-- MQTT topic `industrial/slave/control` (both nodes). -/
def TOPIC_CONTROL : String := "industrial/slave/control"

/-- Threshold `TEMP_HIGH 40` from the slave node. -/
def TEMP_HIGH : ℚ := 40

/-- Threshold `HUMID_HIGH 80` from the slave node. -/
def HUMID_HIGH : ℚ := 80

/-- Threshold `GAS_WARNING 300` from the slave node. -/
def GAS_WARNING : ℤ := 300

/-- Threshold `GAS_CRITICAL 500` from the slave node. -/
def GAS_CRITICAL : ℤ := 500

/-- A C `float` value that may be NaN: `none` embeds NaN. -/
abbrev CFloat : Type := Option ℚ

/-- C comparison `a > b` on a possibly-NaN float `a`: false when `a` is NaN. -/
def fgt (a : CFloat) (b : ℚ) : Bool :=
  match a with
  | none => false
  | some q => decide (b < q)

/-- Alert severity levels used by the slave classification. -/
inductive AlertLevel where
  | NORMAL
  | WARNING
  | CRITICAL
deriving DecidableEq, Repr

/-- Shared helper for `connectToMQTT` of both nodes: the C code loops on
`mqttClient.connect(...)` until it succeeds and then issues its `subscribe`
calls.  `attempts` is the sequence of handshake outcomes offered by the
transport; the result is the list of topics subscribed (empty when the
transport never succeeds, in which case the C loop never exits). -/
def connectLoop (subs : List String) : List Bool → List String
  | [] => []
  | ok :: rest => if ok then subs else connectLoop subs rest

namespace Slave

/-- Blynk virtual pin V0 (temperature widget). -/
def VPIN_TEMP : ℕ := 0

/-- Blynk virtual pin V1 (humidity widget). -/
def VPIN_HUMID : ℕ := 1

/-- Blynk virtual pin V2 (gas widget). -/
def VPIN_GAS : ℕ := 2

/-- Blynk virtual pin V3 (relay widget). -/
def VPIN_RELAY : ℕ := 3

/-- Blynk virtual pin V4 (relay control). -/
def VPIN_CONTROL : ℕ := 4

/-- Mutable state of the slave node relevant to the relay: the digital
level written to `RELAY_PIN` (`true` = HIGH) and the global `relayState`
variable. -/
structure State where
  relayPin : Bool
  relayState : Bool
deriving DecidableEq, Repr

/-- Observable emissions of the slave node. -/
inductive Emit where
  | mqttData (temperature humidity : CFloat) (gas : ℤ) (timestamp : ℕ)
  | mqttAlert (level : String) (timestamp : ℕ)
  | mqttStatus (relay : String) (uptime : ℕ)
  | blynkVW (vpin : ℕ) (value : ℚ)
  | blynkLog (event msg : String)
deriving DecidableEq, Repr

/-- Whether an emission is a Status MQTT publish. -/
def Emit.isStatus : Emit → Bool
  | .mqttStatus _ _ => true
  | _ => false

/-- State right after `setup()`: `digitalWrite(RELAY_PIN, HIGH)` drives the
pin HIGH ("Relay ON initially") while the global `relayState` keeps its
initializer `false`. -/
def bootState : State := { relayPin := true, relayState := false }

/-- `publishStatus()`: publishes (retained) the relay field read from
`digitalRead(RELAY_PIN)` and `uptime = millis() / 10000`. -/
def publishStatus (s : State) (now : ℕ) : Emit :=
  Emit.mqttStatus (if s.relayPin then "ON" else "OFF") (now / 10000)

/-- `publishAlert(level)`: publishes the alert JSON on the alert topic and
logs a Blynk `system_alert` event. -/
def publishAlert (level : String) (now : ℕ) : List Emit :=
  [Emit.mqttAlert level now, Emit.blynkLog "system_alert" ("Alert: " ++ level)]

/-- The branch structure of `checkThresholds`:
`gas > GAS_CRITICAL || temp > TEMP_HIGH || hum > HUMID_HIGH` selects
CRITICAL, else `gas > GAS_WARNING` selects WARNING, else NORMAL. -/
def classify (temp hum : CFloat) (gas : ℤ) : AlertLevel :=
  if decide (GAS_CRITICAL < gas) || fgt temp TEMP_HIGH || fgt hum HUMID_HIGH then
    AlertLevel.CRITICAL
  else if decide (GAS_WARNING < gas) then
    AlertLevel.WARNING
  else
    AlertLevel.NORMAL

/-- `checkThresholds(temp, hum, gas)`: on the CRITICAL branch it publishes
the CRITICAL alert, drives the relay pin LOW, sets `relayState = false`
and writes 0 to the Blynk control pin; on the WARNING branch it publishes
the WARNING alert only; otherwise it does nothing.  It never calls
`publishStatus`. -/
def checkThresholds (temp hum : CFloat) (gas : ℤ) (s : State) (now : ℕ) :
    State × List Emit :=
  match classify temp hum gas with
  | AlertLevel.CRITICAL =>
      ({ relayPin := false, relayState := false },
        publishAlert "CRITICAL" now ++ [Emit.blynkVW VPIN_CONTROL 0])
  | AlertLevel.WARNING => (s, publishAlert "WARNING" now)
  | AlertLevel.NORMAL => (s, [])

/-- `updateBlynk(temp, hum, gas)`: writes temperature and humidity widgets
only when the value is not NaN, then the gas widget and the relay widget
from the global `relayState`. -/
def updateBlynk (temp hum : CFloat) (gas : ℤ) (s : State) : List Emit :=
  (match temp with
    | some t => [Emit.blynkVW VPIN_TEMP t]
    | none => []) ++
  (match hum with
    | some h => [Emit.blynkVW VPIN_HUMID h]
    | none => []) ++
  [Emit.blynkVW VPIN_GAS (gas : ℚ),
   Emit.blynkVW VPIN_RELAY (if s.relayState then 1 else 0)]

/-- The reading-validation step of `publishSensorData`:
`if (isnan(x)) x = -1;` coerces a NaN reading to the sentinel -1. -/
def validateReading (r : CFloat) : CFloat :=
  match r with
  | none => some (-1)
  | some q => some q

/-- `publishSensorData()` with the raw sensor readings as inputs: validates
the readings (NaN becomes -1), publishes the data JSON, updates Blynk, then
runs `checkThresholds` on the validated values. -/
def publishSensorData (temp0 hum0 : CFloat) (gas : ℤ) (s : State) (now : ℕ) :
    State × List Emit :=
  let temp := validateReading temp0
  let hum := validateReading hum0
  let ct := checkThresholds temp hum gas s now
  (ct.1, Emit.mqttData temp hum gas now :: (updateBlynk temp hum gas s ++ ct.2))

/-- The alert level `publishSensorData` effectively assigns to a raw sample:
classification of the validated (NaN-coerced) readings. -/
def sampleClassification (temp0 hum0 : CFloat) (gas : ℤ) : AlertLevel :=
  classify (validateReading temp0) (validateReading hum0) gas

/-- `mqttCallback(topic, payload)` of the slave: on the control topic,
`RELAY_ON` drives the pin HIGH and sets `relayState = true`, `RELAY_OFF`
drives it LOW and sets `relayState = false`, any other payload changes
nothing; in all three cases it then writes the Blynk control pin from the
(possibly unchanged) `relayState` and calls `publishStatus()`. -/
def mqttCallback (topic message : String) (s : State) (now : ℕ) :
    State × List Emit :=
  if topic = TOPIC_CONTROL then
    let s2 :=
      if message = "RELAY_ON" then { relayPin := true, relayState := true }
      else if message = "RELAY_OFF" then { relayPin := false, relayState := false }
      else s
    (s2, [Emit.blynkVW VPIN_CONTROL (if s2.relayState then 1 else 0),
          publishStatus s2 now])
  else (s, [])

/-- The `BLYNK_WRITE(VPIN_CONTROL)` handler: sets `relayState` from the
integer parameter, writes the pin from it, and publishes status. -/
def blynkWriteControl (param : ℤ) (now : ℕ) : State × List Emit :=
  let rs : Bool := decide (param ≠ 0)
  ({ relayPin := rs, relayState := rs },
    [publishStatus { relayPin := rs, relayState := rs } now])

/-- `connectToMQTT()` of the slave: loops until the broker handshake
succeeds, then subscribes to the control topic. -/
def connectToMQTT (attempts : List Bool) : List String :=
  connectLoop [TOPIC_CONTROL] attempts

end Slave

namespace Master

/-- Telegram chat id used by the master's alert bot. -/
def CHAT_ID : String := "1135443651"

/-- Blynk virtual pin V3 (relay widget on the master dashboard). -/
def VPIN_RELAY : ℕ := 3

/-- The master's mutable `slaveData` struct (the mirrored slave state):
temperature, humidity, gas, relay state string, last alert string, and the
time of the last data update. -/
structure State where
  temperature : ℚ
  humidity : ℚ
  gas : ℤ
  relayState : String
  lastAlert : String
  lastUpdate : ℕ
deriving DecidableEq, Repr

/-- Default member initializers of the `slaveData` struct. -/
def slaveDataInit : State :=
  { temperature := 0
    humidity := 0
    gas := 0
    relayState := "OFF"
    lastAlert := "NORMAL"
    lastUpdate := 0 }

/-- Observable emissions of the master node. -/
inductive Emit where
  | mqttPublish (topic payload : String)
  | telegram (chatId msg : String)
  | blynkLog (event msg : String)
  | blynkVW (vpin : ℕ) (value : ℚ)
deriving DecidableEq, Repr

/-- Whether an emission is an MQTT publish (the only way the master can
issue a relay command). -/
def Emit.isMqttPublish : Emit → Bool
  | .mqttPublish _ _ => true
  | _ => false

/-- A successfully deserialized JSON document, with the fields the master's
handlers extract.  A raw payload that fails `deserializeJson` is embedded
as `none` at the `mqttCallback` boundary. -/
structure JsonDoc where
  type : String
  temperature : ℚ
  humidity : ℚ
  gas : ℤ
  level : String
  relay : String
deriving DecidableEq, Repr

/-- `sendControlCommand(command)`: publishes the command string on the
control topic. -/
def sendControlCommand (command : String) : Emit :=
  Emit.mqttPublish TOPIC_CONTROL command

/-- `sendTelegramAlert(message)`: sends the message, prefixed with the
fixed banner, to the configured chat. -/
def sendTelegramAlert (message : String) : Emit :=
  Emit.telegram CHAT_ID ("🔔 Industrial Alert:\n" ++ message)

/-- `handleSensorData(data)`: overwrites the mirrored sensor fields and
`lastUpdate`; no outward emission (serial logging only). -/
def handleSensorData (data : JsonDoc) (s : State) (now : ℕ) :
    State × List Emit :=
  ({ s with
      temperature := data.temperature
      humidity := data.humidity
      gas := data.gas
      lastUpdate := now }, [])

/-- `handleAlert(alert)`: overwrites `lastAlert`; on CRITICAL it sends
RELAY_OFF on the control topic, a Telegram alert and a Blynk event; on
WARNING it sends a Telegram alert only; otherwise nothing. -/
def handleAlert (alert : JsonDoc) (s : State) : State × List Emit :=
  let s2 := { s with lastAlert := alert.level }
  if alert.level = "CRITICAL" then
    (s2, [sendControlCommand "RELAY_OFF",
          sendTelegramAlert "🚨 CRITICAL ALERT! Relay forced OFF",
          Emit.blynkLog "critical_alert" "CRITICAL ALERT from slave!"])
  else if alert.level = "WARNING" then
    (s2, [sendTelegramAlert "⚠ Warning from slave node"])
  else (s2, [])

/-- `handleStatus(status)`: overwrites the mirrored relay state and syncs
the Blynk relay widget. -/
def handleStatus (status : JsonDoc) (s : State) : State × List Emit :=
  let s2 := { s with relayState := status.relay }
  (s2, [Emit.blynkVW VPIN_RELAY (if s2.relayState = "ON" then 1 else 0)])

/-- `mqttCallback(topic, payload)` of the master: a payload that fails to
deserialize is dropped (after a serial log); a parsed document is
dispatched only when the topic and the declared `type` field agree,
otherwise it is dropped silently. -/
def mqttCallback (topic : String) (msg : Option JsonDoc) (s : State)
    (now : ℕ) : State × List Emit :=
  match msg with
  | none => (s, [])
  | some doc =>
    if topic = TOPIC_DATA ∧ doc.type = "data" then handleSensorData doc s now
    else if topic = TOPIC_ALERT ∧ doc.type = "alert" then handleAlert doc s
    else if topic = TOPIC_STATUS ∧ doc.type = "status" then handleStatus doc s
    else (s, [])

/-- `connectToMQTT()` of the master: loops until the broker handshake
succeeds, then subscribes to the data, alert and status topics. -/
def connectToMQTT (attempts : List Bool) : List String :=
  connectLoop [TOPIC_DATA, TOPIC_ALERT, TOPIC_STATUS] attempts

end Master

/-- An eventually-successful connect loop issues exactly its subscription
set. -/
theorem connectLoop_eq_of_mem (subs : List String) :
    (l : List Bool) → true ∈ l → connectLoop subs l = subs
  | [], h => by simp at h
  | true :: _, _ => by simp [connectLoop]
  | false :: rest, h => by
      have hr : true ∈ rest := by simpa using h
      simpa [connectLoop] using connectLoop_eq_of_mem subs rest hr

/-- Claim C1 counterexample: a CRITICAL classification (gas = 600) forces
the relay OFF, yet an immediately following remote RELAY_ON on the control
topic mutates the state and sets RelayState to true — the claimed latched
rejection does not happen. -/
theorem C1_counterexample :
    (Slave.checkThresholds (some 25) (some 50) 600 Slave.bootState 0).1.relayState
        = false ∧
    (Slave.mqttCallback TOPIC_CONTROL "RELAY_ON"
        (Slave.checkThresholds (some 25) (some 50) 600 Slave.bootState 0).1
        1).1.relayState = true := by
  decide

/-- Claim C1 (amended): the slave implements no latch.  After a CRITICAL
classification has forced the relay OFF, processing a remote RELAY_ON
unconditionally sets the pin HIGH and RelayState to true, and publishes a
Status message. -/
theorem C1_holds (temp hum : CFloat) (gas : ℤ) (s : Slave.State)
    (n m : ℕ) (hcrit : Slave.classify temp hum gas = AlertLevel.CRITICAL) :
    (Slave.checkThresholds temp hum gas s n).1.relayState = false ∧
    (Slave.mqttCallback TOPIC_CONTROL "RELAY_ON"
        (Slave.checkThresholds temp hum gas s n).1 m).1 =
      { relayPin := true, relayState := true } ∧
    Slave.publishStatus { relayPin := true, relayState := true } m ∈
      (Slave.mqttCallback TOPIC_CONTROL "RELAY_ON"
        (Slave.checkThresholds temp hum gas s n).1 m).2 := by
  refine ⟨?_, ?_, ?_⟩ <;>
    simp [Slave.checkThresholds, hcrit, Slave.mqttCallback, Slave.publishStatus]

/-- Claim C1 witness: the amended statement at a concrete CRITICAL sample. -/
theorem C1_witness :
    (Slave.mqttCallback TOPIC_CONTROL "RELAY_ON"
        (Slave.checkThresholds (some 20) (some 50) 700 Slave.bootState 0).1
        3).1 = { relayPin := true, relayState := true } :=
  (C1_holds (some 20) (some 50) 700 Slave.bootState 0 3 (by decide)).2.1

/-- Claim C2 counterexample: starting from relay ON, the local safety path
on a CRITICAL classification accepts a transition to OFF but emits no
Status message at all. -/
theorem C2_counterexample :
    (Slave.checkThresholds (some 25) (some 50) 600
        { relayPin := true, relayState := true } 0).1.relayState = false ∧
    (Slave.checkThresholds (some 25) (some 50) 600
        { relayPin := true, relayState := true } 0).2.filter
        Slave.Emit.isStatus = [] := by
  decide

/-- Claim C2 (amended): a remote RELAY_ON / RELAY_OFF on the control topic
updates RelayState and publishes exactly one Status message, but the local
safety path forcing OFF on a CRITICAL classification updates RelayState
and emits a CRITICAL Alert without any Status message. -/
theorem C2_holds (s : Slave.State) (n : ℕ) (temp hum : CFloat) (gas : ℤ)
    (hcrit : Slave.classify temp hum gas = AlertLevel.CRITICAL) :
    ((Slave.mqttCallback TOPIC_CONTROL "RELAY_ON" s n).1.relayState = true ∧
      (Slave.mqttCallback TOPIC_CONTROL "RELAY_ON" s n).2.filter
          Slave.Emit.isStatus =
        [Slave.publishStatus { relayPin := true, relayState := true } n]) ∧
    ((Slave.mqttCallback TOPIC_CONTROL "RELAY_OFF" s n).1.relayState = false ∧
      (Slave.mqttCallback TOPIC_CONTROL "RELAY_OFF" s n).2.filter
          Slave.Emit.isStatus =
        [Slave.publishStatus { relayPin := false, relayState := false } n]) ∧
    ((Slave.checkThresholds temp hum gas s n).1 =
        { relayPin := false, relayState := false } ∧
      (Slave.checkThresholds temp hum gas s n).2.filter
          Slave.Emit.isStatus = [] ∧
      Slave.Emit.mqttAlert "CRITICAL" n ∈
        (Slave.checkThresholds temp hum gas s n).2) := by
  refine ⟨⟨?_, ?_⟩, ⟨?_, ?_⟩, ?_, ?_, ?_⟩ <;>
    simp [Slave.mqttCallback, Slave.checkThresholds, hcrit,
      Slave.publishAlert, Slave.publishStatus, Slave.Emit.isStatus]

/-- Claim C2 witness: the amended statement at a concrete CRITICAL sample. -/
theorem C2_witness :
    (Slave.mqttCallback TOPIC_CONTROL "RELAY_ON" Slave.bootState 2).2.filter
        Slave.Emit.isStatus =
      [Slave.publishStatus { relayPin := true, relayState := true } 2] :=
  (C2_holds Slave.bootState 2 (some 25) (some 50) 600 (by decide)).1.2

/-- Claim C3: an inbound alert message (alert topic, declared type alert)
with level CRITICAL makes the master publish RELAY_OFF on the control
topic and notify the Telegram and Blynk observer channels with a
CRITICAL-tagged message; level WARNING notifies the Telegram observer
only, with no MQTT publish at all. -/
theorem C3_holds (doc : Master.JsonDoc) (s : Master.State) (n : ℕ)
    (htype : doc.type = "alert") :
    (doc.level = "CRITICAL" →
      (Master.mqttCallback TOPIC_ALERT (some doc) s n).2 =
        [Master.sendControlCommand "RELAY_OFF",
         Master.sendTelegramAlert "🚨 CRITICAL ALERT! Relay forced OFF",
         Master.Emit.blynkLog "critical_alert" "CRITICAL ALERT from slave!"] ∧
      Master.Emit.mqttPublish TOPIC_CONTROL "RELAY_OFF" ∈
        (Master.mqttCallback TOPIC_ALERT (some doc) s n).2) ∧
    (doc.level = "WARNING" →
      (Master.mqttCallback TOPIC_ALERT (some doc) s n).2 =
        [Master.sendTelegramAlert "⚠ Warning from slave node"] ∧
      (Master.mqttCallback TOPIC_ALERT (some doc) s n).2.filter
          Master.Emit.isMqttPublish = []) := by
  constructor
  · intro hlev
    constructor <;>
      simp [Master.mqttCallback, Master.handleAlert, htype, hlev,
        Master.sendControlCommand, Master.sendTelegramAlert,
        TOPIC_ALERT, TOPIC_DATA, TOPIC_STATUS]
  · intro hlev
    constructor <;>
      simp [Master.mqttCallback, Master.handleAlert, htype, hlev,
        Master.sendTelegramAlert, Master.Emit.isMqttPublish,
        TOPIC_ALERT, TOPIC_DATA, TOPIC_STATUS]

/-- A concrete CRITICAL alert document. -/
def alertDocCritical : Master.JsonDoc :=
  { type := "alert", temperature := 0, humidity := 0, gas := 0,
    level := "CRITICAL", relay := "OFF" }

/-- Claim C3 witness: the CRITICAL branch at a concrete alert document. -/
theorem C3_witness :
    Master.Emit.mqttPublish TOPIC_CONTROL "RELAY_OFF" ∈
      (Master.mqttCallback TOPIC_ALERT (some alertDocCritical)
        Master.slaveDataInit 0).2 :=
  ((C3_holds alertDocCritical Master.slaveDataInit 0 rfl).1 rfl).2

/-- Claim C4: classification puts CRITICAL first — any sample with
gasLevel above GAS_CRITICAL is CRITICAL regardless of the other fields —
and the four concrete samples of the spec classify as stated. -/
theorem C4_holds (temp hum : CFloat) (gas : ℤ) (h : GAS_CRITICAL < gas) :
    Slave.classify temp hum gas = AlertLevel.CRITICAL ∧
    Slave.classify (some 25) (some 50) 600 = AlertLevel.CRITICAL ∧
    Slave.classify (some 25) (some 50) 350 = AlertLevel.WARNING ∧
    Slave.classify (some 41) (some 50) 100 = AlertLevel.CRITICAL ∧
    Slave.classify (some 30) (some 30) 100 = AlertLevel.NORMAL := by
  refine ⟨?_, by decide, by decide, by decide, by decide⟩
  simp [Slave.classify, h]

/-- Claim C4 witness: the statement instantiated at gas = 501 with both
readings absent. -/
theorem C4_witness :
    Slave.classify none none 501 = AlertLevel.CRITICAL ∧
    Slave.classify (some 25) (some 50) 600 = AlertLevel.CRITICAL ∧
    Slave.classify (some 25) (some 50) 350 = AlertLevel.WARNING ∧
    Slave.classify (some 41) (some 50) 100 = AlertLevel.CRITICAL ∧
    Slave.classify (some 30) (some 30) 100 = AlertLevel.NORMAL :=
  C4_holds none none 501 (by decide)

/-- Claim C5 counterexample: a sample with the temperature reading absent,
humidity 90 and gas only 100 is classified CRITICAL although its gas level
does not exceed GAS_CRITICAL — the claim that such a sample is CRITICAL
only if gasLevel exceeds GAS_CRITICAL is false. -/
theorem C5_counterexample :
    Slave.sampleClassification none (some 90) 100 = AlertLevel.CRITICAL ∧
    ¬ GAS_CRITICAL < (100 : ℤ) := by
  decide

/-- Claim C5 (amended): an absent reading itself never triggers CRITICAL.
A sample with both readings absent is CRITICAL exactly when gasLevel
exceeds GAS_CRITICAL; with one reading absent, CRITICAL additionally
requires only that the present reading exceed its threshold. -/
theorem C5_holds (gas : ℤ) (t h : ℚ) :
    (Slave.sampleClassification none none gas = AlertLevel.CRITICAL ↔
      GAS_CRITICAL < gas) ∧
    (Slave.sampleClassification none (some h) gas = AlertLevel.CRITICAL ↔
      (GAS_CRITICAL < gas ∨ HUMID_HIGH < h)) ∧
    (Slave.sampleClassification (some t) none gas = AlertLevel.CRITICAL ↔
      (GAS_CRITICAL < gas ∨ TEMP_HIGH < t)) := by
  have hT : fgt (some (-1)) TEMP_HIGH = false := by decide
  have hH : fgt (some (-1)) HUMID_HIGH = false := by decide
  refine ⟨?_, ?_, ?_⟩
  · by_cases hg : GAS_CRITICAL < gas
    · simp [Slave.sampleClassification, Slave.validateReading, Slave.classify,
        hT, hH, hg]
    · by_cases hw : GAS_WARNING < gas <;>
        simp [Slave.sampleClassification, Slave.validateReading, Slave.classify,
          hT, hH, hg, hw]
  · by_cases hg : GAS_CRITICAL < gas
    · simp [Slave.sampleClassification, Slave.validateReading, Slave.classify,
        fgt, hT, hg]
    · by_cases hh : HUMID_HIGH < h
      · simp [Slave.sampleClassification, Slave.validateReading, Slave.classify,
          fgt, hT, hg, hh]
      · by_cases hw : GAS_WARNING < gas <;>
          simp [Slave.sampleClassification, Slave.validateReading, Slave.classify,
            fgt, hT, hg, hh, hw] <;> norm_num [TEMP_HIGH]
  · by_cases hg : GAS_CRITICAL < gas
    · simp [Slave.sampleClassification, Slave.validateReading, Slave.classify,
        fgt, hH, hg]
    · by_cases ht : TEMP_HIGH < t
      · simp [Slave.sampleClassification, Slave.validateReading, Slave.classify,
          fgt, hH, hg, ht]
      · by_cases hw : GAS_WARNING < gas <;>
          simp [Slave.sampleClassification, Slave.validateReading, Slave.classify,
            fgt, hH, hg, ht, hw] <;> norm_num [HUMID_HIGH]

/-- Claim C5 witness: both-absent sample at gas = 600 is CRITICAL via the
amended characterization. -/
theorem C5_witness :
    Slave.sampleClassification none none 600 = AlertLevel.CRITICAL :=
  ((C5_holds 600 0 0).1).mpr (by decide)

/-- Claim C6 counterexample: an unrecognized control payload leaves the
state unchanged but the handler still publishes a Status message. -/
theorem C6_counterexample :
    (Slave.mqttCallback TOPIC_CONTROL "OPEN_VALVE" Slave.bootState 3).1 =
      Slave.bootState ∧
    (Slave.mqttCallback TOPIC_CONTROL "OPEN_VALVE" Slave.bootState 3).2.filter
        Slave.Emit.isStatus ≠ [] := by
  decide

/-- Claim C6 (amended): any control payload other than RELAY_ON and
RELAY_OFF leaves RelayState unchanged, yet the handler still writes the
Blynk control pin and publishes a Status message. -/
theorem C6_holds (message : String) (s : Slave.State) (n : ℕ)
    (h1 : message ≠ "RELAY_ON") (h2 : message ≠ "RELAY_OFF") :
    (Slave.mqttCallback TOPIC_CONTROL message s n).1 = s ∧
    (Slave.mqttCallback TOPIC_CONTROL message s n).2 =
      [Slave.Emit.blynkVW Slave.VPIN_CONTROL (if s.relayState then 1 else 0),
       Slave.publishStatus s n] := by
  constructor <;> simp [Slave.mqttCallback, h1, h2]

/-- Claim C6 witness: the amended statement at a concrete unknown payload. -/
theorem C6_witness :
    (Slave.mqttCallback TOPIC_CONTROL "PING" Slave.bootState 0).1 =
      Slave.bootState :=
  (C6_holds "PING" Slave.bootState 0 (by decide) (by decide)).1

/-- A document whose declared type (alert) mismatches the data topic. -/
def mismatchedDoc : Master.JsonDoc :=
  { type := "alert", temperature := 0, humidity := 0, gas := 0,
    level := "CRITICAL", relay := "" }

/-- Claim C7 counterexample: a topic/type mismatch on the data topic is
discarded with the mirrored state unchanged and no observable effect of
any kind — in particular nothing in the master's mutable state is
incremented, so no error counter exists to count it. -/
theorem C7_counterexample :
    Master.mqttCallback TOPIC_DATA (some mismatchedDoc)
        Master.slaveDataInit 7 = (Master.slaveDataInit, []) := by
  decide

/-- Claim C7 (amended): a payload that fails to parse, or whose declared
type does not match its topic, is discarded with the mirrored state
entirely unchanged (never applied partially) and no emission; the master
maintains no error counter. -/
theorem C7_holds (topic : String) (doc : Master.JsonDoc)
    (s : Master.State) (n : ℕ)
    (hd : ¬(topic = TOPIC_DATA ∧ doc.type = "data"))
    (ha : ¬(topic = TOPIC_ALERT ∧ doc.type = "alert"))
    (hs : ¬(topic = TOPIC_STATUS ∧ doc.type = "status")) :
    Master.mqttCallback topic (some doc) s n = (s, []) ∧
    Master.mqttCallback topic none s n = (s, []) := by
  constructor
  · simp [Master.mqttCallback, hd, ha, hs]
  · rfl

/-- Claim C7 witness: the amended statement at a concrete mismatched
document on the data topic. -/
theorem C7_witness :
    Master.mqttCallback TOPIC_DATA (some mismatchedDoc)
        Master.slaveDataInit 5 = (Master.slaveDataInit, []) ∧
    Master.mqttCallback TOPIC_DATA none Master.slaveDataInit 5 =
      (Master.slaveDataInit, []) :=
  C7_holds TOPIC_DATA mismatchedDoc Master.slaveDataInit 5
    (by decide) (by decide) (by decide)

/-- Claim C8 counterexample: with the temperature read failed (NaN), the
outgoing Data message carries temperature -1 — a sentinel magic number —
rather than an explicit absent marker. -/
theorem C8_counterexample :
    (Slave.publishSensorData none (some 50) 100 Slave.bootState 0).2.head? =
      some (Slave.Emit.mqttData (some (-1)) (some 50) 100 0) ∧
    (Slave.publishSensorData none (some 50) 100 Slave.bootState 0).2.head? ≠
      some (Slave.Emit.mqttData none (some 50) 100 0) := by
  decide

/-- Claim C8 (amended): an absent temperature or humidity reading is
coerced to the sentinel value -1 in the Data message the slave publishes. -/
theorem C8_holds (temp0 hum0 : CFloat) (gas : ℤ) (s : Slave.State)
    (n : ℕ) :
    (Slave.publishSensorData none hum0 gas s n).2.head? =
      some (Slave.Emit.mqttData (some (-1)) (Slave.validateReading hum0)
        gas n) ∧
    (Slave.publishSensorData temp0 none gas s n).2.head? =
      some (Slave.Emit.mqttData (Slave.validateReading temp0) (some (-1))
        gas n) := by
  constructor <;> rfl

/-- Claim C9: whenever the connect loop eventually succeeds, the slave
resubscribes exactly to the control topic and the master exactly to the
data, alert and status topics. -/
theorem C9_holds (attempts : List Bool) (h : true ∈ attempts) :
    Slave.connectToMQTT attempts = [TOPIC_CONTROL] ∧
    Master.connectToMQTT attempts = [TOPIC_DATA, TOPIC_ALERT, TOPIC_STATUS] := by
  refine ⟨?_, ?_⟩ <;>
    simp only [Slave.connectToMQTT, Master.connectToMQTT] <;>
    exact connectLoop_eq_of_mem _ attempts h

/-- Claim C9 witness: reconnection succeeding on the second attempt. -/
theorem C9_witness :
    Slave.connectToMQTT [false, true] = [TOPIC_CONTROL] ∧
    Master.connectToMQTT [false, true] =
      [TOPIC_DATA, TOPIC_ALERT, TOPIC_STATUS] :=
  C9_holds [false, true] (by simp)

/-- Claim C10: right after boot the relay pin is HIGH while the
relayState variable is false, so a Status emission (reading the pin)
reports "ON" while the Blynk dashboard update (reading the variable)
reports 0; the consistency relayState = pin is established by each
handler that writes both (remote command, safety path, Blynk control). -/
theorem C10_holds (n m : ℕ) (temp hum : CFloat) (gas : ℤ)
    (s : Slave.State) (p : ℤ)
    (hcrit : Slave.classify temp hum gas = AlertLevel.CRITICAL) :
    Slave.bootState.relayPin = true ∧
    Slave.bootState.relayState = false ∧
    Slave.publishStatus Slave.bootState n =
      Slave.Emit.mqttStatus "ON" (n / 10000) ∧
    Slave.Emit.blynkVW Slave.VPIN_RELAY 0 ∈
      Slave.updateBlynk temp hum gas Slave.bootState ∧
    ((Slave.mqttCallback TOPIC_CONTROL "RELAY_ON" s m).1.relayPin =
      (Slave.mqttCallback TOPIC_CONTROL "RELAY_ON" s m).1.relayState) ∧
    ((Slave.mqttCallback TOPIC_CONTROL "RELAY_OFF" s m).1.relayPin =
      (Slave.mqttCallback TOPIC_CONTROL "RELAY_OFF" s m).1.relayState) ∧
    ((Slave.checkThresholds temp hum gas s m).1.relayPin =
      (Slave.checkThresholds temp hum gas s m).1.relayState) ∧
    ((Slave.blynkWriteControl p m).1.relayPin =
      (Slave.blynkWriteControl p m).1.relayState) := by
  refine ⟨rfl, rfl, rfl, ?_, ?_, ?_, ?_, rfl⟩
  · cases temp <;> cases hum <;>
      simp [Slave.updateBlynk, Slave.bootState, Slave.VPIN_RELAY,
        Slave.VPIN_GAS, Slave.VPIN_TEMP, Slave.VPIN_HUMID]
  · simp [Slave.mqttCallback]
  · simp [Slave.mqttCallback]
  · simp [Slave.checkThresholds, hcrit]

/-- Claim C10 witness: the boot inconsistency at a concrete CRITICAL
sample. -/
theorem C10_witness :
    Slave.publishStatus Slave.bootState 0 =
      Slave.Emit.mqttStatus "ON" 0 ∧
    Slave.Emit.blynkVW Slave.VPIN_RELAY 0 ∈
      Slave.updateBlynk (some 41) (some 50) 100 Slave.bootState :=
  ⟨(C10_holds 0 1 (some 41) (some 50) 100 Slave.bootState 1
      (by decide)).2.2.1,
   (C10_holds 0 1 (some 41) (some 50) 100 Slave.bootState 1
      (by decide)).2.2.2.1⟩

end Industria
